import Mathlib

/-!
Verification of the kafka_client package of grafana-kafka-datasource.

The repository carries two variants of the client:
* `src/unnamed/part_000` (namespace `Part000` below): non-group reader,
  bounded-lookback resolution of the `earliest` offset policy
  (DialLeader + ReadOffsets + maxEarliest window), nil-guarded `Dispose`,
  a separate `NewConnection` step that `TopicAssign` does not re-run.
* `src/pkg/kafka_client/client.go` (namespace `ClientGo` below): group reader
  (`GroupID = "kafka-datasource"`), `earliest` resolved directly to the
  FirstOffset sentinel, `TopicAssign` re-runs the credential/transport
  builder on every call, `Dispose` without a nil guard.

External collaborators (the kafka-go transport, scram constructors,
encoding/json) are embedded as oracles/parameters or small spec-modelled
functions, as the spec's §1 declares them out of scope.
-/

/-- SHA algorithm selector of the scram package (scram.SHA256 / scram.SHA512). -/
inductive ScramAlgo
  | sha256
  | sha512
deriving DecidableEq

/-- A built SASL capability (kafka-go sasl.Mechanism values produced by
plain.Mechanism and scram.Mechanism). -/
inductive SASLMechanism
  | plain (username password : String)
  | scram (algo : ScramAlgo) (username password : String)
deriving DecidableEq

/-- The type of the external scram.Mechanism constructor: it may fail
(kafka-go returns an error for credentials rejected by SASLprep). -/
abbrev ScramCtor := ScramAlgo → String → String → Except String SASLMechanism

/-- tls.Config as used here: only MinVersion is ever set. -/
structure TLSConfig where
  MinVersion : Nat
deriving DecidableEq

/-- tls.VersionTLS13 (0x0304). -/
def tlsVersionTLS13 : Nat := 772

/-- Go: `const dialerTimeout = 10 * time.Second`, in milliseconds. -/
def dialerTimeout : Int := 10000

/-- kafka.Dialer, restricted to the fields this package sets. -/
structure Dialer where
  Timeout : Int
  SASLMechanism : Option SASLMechanism := none
  TLS : Option TLSConfig := none
deriving DecidableEq

/-- kafka.FirstOffset sentinel (-2): the broker's lowest retained offset. -/
def FirstOffset : Int := -2

/-- kafka.LastOffset sentinel (-1): the broker's next offset to be written. -/
def LastOffset : Int := -1

/-- Go: `const maxEarliest int64 = 100` (part_000 only). -/
def maxEarliest : Int := 100

/-- Go: `const consumerGroupID = "kafka-datasource"` (client.go only). -/
def consumerGroupID : String := "kafka-datasource"

/-- kafka.ReaderConfig, restricted to the fields this package sets
(the two logger sinks are omitted: they carry no data). -/
structure ReaderConfig where
  Brokers : List String
  GroupID : Option String
  Topic : String
  Partition : Int
  Dialer : Option Dialer
  StartOffset : Option Int
  CommitInterval : Int
deriving DecidableEq

/-- kafka.Reader: its configuration, its current offset and a closed flag. -/
structure Reader where
  config : ReaderConfig
  offset : Int
  closed : Bool
deriving DecidableEq

/-- kafka-go Reader.SetOffset: succeeds on an open non-group reader and
moves its offset; it errors on group readers and on closed readers
(external library behavior; both callers here use open non-group readers). -/
def Reader.SetOffset (r : Reader) (offset : Int) : Except String Reader :=
  if r.config.GroupID.isSome then
    .error ("SetOffset: not available when GroupID is set")
  else if r.closed then
    .error ("SetOffset: reader closed")
  else
    .ok { r with offset := offset }

/-- One underlying close of a reader's connection. -/
inductive CloseEvent
  | underlyingClose
deriving DecidableEq

/-- kafka-go Reader.Close: idempotent; only the first call closes the
underlying connection (external library behavior). -/
def Reader.close (r : Reader) : Reader × List CloseEvent :=
  if r.closed then (r, []) else ({ r with closed := true }, [CloseEvent.underlyingClose])

/-- A Go runtime fault: dereferencing a nil pointer
(e.g. calling a method that reads fields of a nil *kafka.Reader). -/
inductive GoPanic
  | nilPointerDeref
deriving DecidableEq

/-- The KafkaClient struct (identical field list in both variants). -/
structure KafkaClient where
  Dialer : Option Dialer := none
  Reader : Option Reader := none
  BootstrapServers : String := ""
  TimestampMode : String := ""
  SecurityProtocol : String := ""
  SaslMechanisms : String := ""
  SaslUsername : String := ""
  SaslPassword : String := ""
  LogLevel : String := ""
  HealthcheckTimeout : Int := 0
deriving DecidableEq

/-- Errors of getSASLMechanism: the unsupported-mechanism default case, or a
failure propagated from the external scram constructor. -/
inductive SASLError
  | unsupportedMechanism (name : String)
  | scramFailed (e : String)
deriving DecidableEq

/-- getSASLMechanism (identical in both variants): dispatch on the
configured SASL mechanism string. -/
def getSASLMechanism (scramMechanism : ScramCtor) (client : KafkaClient) :
    Except SASLError (Option SASLMechanism) :=
  match client.SaslMechanisms with
  | "PLAIN" => .ok (some (.plain client.SaslUsername client.SaslPassword))
  | "SCRAM-SHA-256" =>
    match scramMechanism .sha256 client.SaslUsername client.SaslPassword with
    | .ok m => .ok (some m)
    | .error e => .error (.scramFailed e)
  | "SCRAM-SHA-512" =>
    match scramMechanism .sha512 client.SaslUsername client.SaslPassword with
    | .ok m => .ok (some m)
    | .error e => .error (.scramFailed e)
  | "" => .ok none
  | other => .error (.unsupportedMechanism other)

/-- Error of the credential/transport builder ("unable to get sasl mechanism"). -/
inductive InitError
  | saslFailed (e : SASLError)
deriving DecidableEq

/-- Observable side effects of an assignment call, in program order:
an invocation of the credential/transport builder, the broker round trips
of the earliest-offset resolution, and the opening of the reader. -/
inductive Event
  | buildDialer
  | dialLeader (addr : String) (topic : String) (partition : Int)
  | readOffsets
  | newReader (topic : String) (partition : Int)
deriving DecidableEq

namespace Part000

/-- NewConnection (part_000): build the dialer, wiring in the SASL mechanism
if one is configured and TLS 1.3 when the security protocol is SASL_SSL. -/
def NewConnection (scramMechanism : ScramCtor) (client : KafkaClient) :
    Except InitError KafkaClient :=
  match (if client.SaslMechanisms ≠ "" then getSASLMechanism scramMechanism client
         else .ok none) with
  | .error e => .error (.saslFailed e)
  | .ok mechanism =>
    let dialer : Dialer :=
      { Timeout := dialerTimeout
        SASLMechanism := mechanism
        TLS := if client.SecurityProtocol = "SASL_SSL"
               then some { MinVersion := tlsVersionTLS13 } else none }
    .ok { client with Dialer := some dialer }

/-- newReader (part_000): non-group reader over the session's current dialer;
its offset starts at the library's FirstOffset default until SetOffset runs. -/
def newReader (client : KafkaClient) (topic : String) (partition : Int) : Reader :=
  { config :=
      { Brokers := client.BootstrapServers.splitOn (",")
        GroupID := none
        Topic := topic
        Partition := partition
        Dialer := client.Dialer
        StartOffset := none
        CommitInterval := 0 }
    offset := FirstOffset
    closed := false }

/-- Errors of TopicAssign (part_000): "unable to dial leader",
"unable to read offsets", "unable to set offset". -/
inductive TAErr
  | dialLeaderFailed (e : String)
  | readOffsetsFailed (e : String)
  | setOffsetFailed (e : String)
deriving DecidableEq

/-- The spec's §4.2 and §7 group a leader-dial failure and a watermark-read
failure during earliest-offset resolution under OffsetResolutionFailed. -/
def TAErr.offsetResolutionFailed : TAErr → Bool
  | .dialLeaderFailed _ => true
  | .readOffsetsFailed _ => true
  | .setOffsetFailed _ => false

/-- Tail of TopicAssign (part_000): bind the new reader to the session and
seat it at the resolved offset via SetOffset. -/
def finishAssign (client : KafkaClient) (topic : String) (partition : Int)
    (offset : Int) (evs : List Event) :
    Except TAErr Unit × KafkaClient × List Event :=
  let r := newReader client topic partition
  match r.SetOffset offset with
  | .error e =>
    (.error (.setOffsetFailed e), { client with Reader := some r },
     evs ++ [Event.newReader topic partition])
  | .ok r2 =>
    (.ok (), { client with Reader := some r2 },
     evs ++ [Event.newReader topic partition])

/-- TopicAssign (part_000). The broker is an oracle: `dialRes` is the outcome
of DialLeader, `offsetsRes` the (low, high) watermark pair of ReadOffsets.
Returns the call's outcome, the updated session, and the event trace. -/
def TopicAssign (client : KafkaClient) (topic : String) (partition : Int)
    (autoOffsetReset : String) (timestampMode : String)
    (dialRes : Except String Unit) (offsetsRes : Except String (Int × Int)) :
    Except TAErr Unit × KafkaClient × List Event :=
  let client0 := { client with TimestampMode := timestampMode }
  match autoOffsetReset with
  | "latest" => finishAssign client0 topic partition LastOffset []
  | "earliest" =>
    match dialRes with
    | .error e =>
      (.error (.dialLeaderFailed e), client0,
       [Event.dialLeader client0.BootstrapServers topic partition])
    | .ok _ =>
      match offsetsRes with
      | .error e =>
        (.error (.readOffsetsFailed e), client0,
         [Event.dialLeader client0.BootstrapServers topic partition, Event.readOffsets])
      | .ok (low, high) =>
        let offset := if high - low > maxEarliest then high - maxEarliest else low
        finishAssign client0 topic partition offset
          [Event.dialLeader client0.BootstrapServers topic partition, Event.readOffsets]
  | _ => finishAssign client0 topic partition LastOffset []

/-- Dispose (part_000): nil-guarded close of the bound reader. -/
def Dispose (client : KafkaClient) :
    Except GoPanic (KafkaClient × List CloseEvent) :=
  match client.Reader with
  | none => .ok (client, [])
  | some r =>
    let rc := r.close
    .ok ({ client with Reader := some rc.1 }, rc.2)

end Part000

namespace ClientGo

/-- consumerInitialize (client.go): same builder, but the TLS config is the
zero value (no MinVersion pinned). -/
def consumerInit (scramMechanism : ScramCtor) (client : KafkaClient) :
    Except InitError KafkaClient :=
  match (if client.SaslMechanisms ≠ "" then getSASLMechanism scramMechanism client
         else .ok none) with
  | .error e => .error (.saslFailed e)
  | .ok mechanism =>
    let dialer : Dialer :=
      { Timeout := dialerTimeout
        SASLMechanism := mechanism
        TLS := if client.SecurityProtocol = "SASL_SSL"
               then some { MinVersion := 0 } else none }
    .ok { client with Dialer := some dialer }

/-- newReader (client.go): consumer-group reader with the start offset fixed
in its configuration. -/
def newReader (client : KafkaClient) (topic : String) (partition : Int)
    (offset : Int) : Reader :=
  { config :=
      { Brokers := client.BootstrapServers.splitOn (",")
        GroupID := some consumerGroupID
        Topic := topic
        Partition := partition
        Dialer := client.Dialer
        StartOffset := some offset
        CommitInterval := 0 }
    offset := offset
    closed := false }

/-- Errors of TopicAssign (client.go): only the builder can fail
("unable to initialize Kafka client"). -/
inductive TAErr
  | initFailed (e : InitError)
deriving DecidableEq

/-- TopicAssign (client.go): store the timestamp mode, re-run the
credential/transport builder, resolve the policy to a sentinel offset with no
broker round trip, and open the reader. -/
def TopicAssign (scramMechanism : ScramCtor) (client : KafkaClient)
    (topic : String) (partition : Int)
    (autoOffsetReset : String) (timestampMode : String) :
    Except TAErr Unit × KafkaClient × List Event :=
  let client0 := { client with TimestampMode := timestampMode }
  match consumerInit scramMechanism client0 with
  | .error e => (.error (.initFailed e), client0, [Event.buildDialer])
  | .ok client1 =>
    let offset :=
      match autoOffsetReset with
      | "latest" => LastOffset
      | "earliest" => FirstOffset
      | _ => LastOffset
    let r := newReader client1 topic partition offset
    (.ok (), { client1 with Reader := some r },
     [Event.buildDialer, Event.newReader topic partition])

/-- Dispose (client.go): `client.Reader.Close()` with no nil guard — on a
session with no reader ever bound this dereferences a nil pointer. -/
def Dispose (client : KafkaClient) :
    Except GoPanic (KafkaClient × List CloseEvent) :=
  match client.Reader with
  | none => .error GoPanic.nilPointerDeref
  | some r =>
    let rc := r.close
    .ok ({ client with Reader := some rc.1 }, rc.2)

end ClientGo

/-- kafka.Message as consumed here: raw body bytes, broker timestamp, offset. -/
structure GoMessage where
  Value : String
  Time : Int
  Offset : Int
deriving DecidableEq

/-- KafkaMessage: the decoded flat string-to-float64 record, with the
broker-assigned timestamp and offset.  float64 values are embedded as
rationals (the decoded example values are exactly representable). -/
structure KafkaMessage where
  Value : List (String × ℚ) := []
  Timestamp : Int := 0
  Offset : Int := 0
deriving DecidableEq

/-- Errors of ConsumerPull: "error reading message from Kafka" and
"error unmarshalling message". -/
inductive PullError
  | readError (e : String)
  | decodeError (e : String)
deriving DecidableEq

/-- ConsumerPull (identical in both variants up to error wrapping).  The
reader's pending messages are the `stream`; ReadMessage consumes the head
before decoding, so a message that fails to decode is already past the
cursor.  An empty stream stands for a read that ends with the context
(ReadMessage error).  The session state is returned unchanged. -/
def ConsumerPull (unmarshal : String → Except String (List (String × ℚ)))
    (client : KafkaClient) (stream : List GoMessage) :
    Except PullError KafkaMessage × KafkaClient × List GoMessage :=
  match stream with
  | [] => (.error (.readError ("context canceled")), client, [])
  | msg :: rest =>
    match unmarshal msg.Value with
    | .error e => (.error (.decodeError e), client, rest)
    | .ok v =>
      (.ok { Value := v, Timestamp := msg.Time, Offset := msg.Offset }, client, rest)

/-- Outcome of one 200 ms health-check tick: the dial failed, or it succeeded
and ReadPartitions then failed or succeeded. -/
inductive TickOutcome
  | dialFail (e : String)
  | dialOkPartsFail (e : String)
  | dialOkPartsOk (parts : List String)
deriving DecidableEq

/-- Result of HealthCheck: success, builder failure
("unable to initialize Kafka client"), fatal ReadPartitions failure
("error reading partitions"), or deadline expiry
("health check timed out after %d ms" wrapping the last dial error, nil if
no tick ever fired). -/
inductive HealthResult
  | ok
  | initFailed (e : InitError)
  | partitionListFailed (e : String)
  | timedOut (lastErr : Option String)
deriving DecidableEq

/-- The select loop of HealthCheck.  `fuel` is the number of ticks that fire
strictly before the deadline, `k` indexes the next tick, `lastErr` the last
dial error observed.  When the fuel runs out the timeout channel wins. -/
def healthLoop (outcomes : Nat → TickOutcome) : Nat → Nat → Option String → HealthResult
  | 0, _, lastErr => .timedOut lastErr
  | fuel + 1, k, _lastErr =>
    match outcomes k with
    | .dialFail e => healthLoop outcomes fuel (k + 1) (some e)
    | .dialOkPartsFail e => .partitionListFailed e
    | .dialOkPartsOk _ => .ok

/-- Number of 200 ms ticks that fire strictly before a deadline of
`timeoutMs` milliseconds (tick k fires at time 200·k, k ≥ 1; a nonpositive
deadline fires at once).  A tick tied exactly with the deadline is resolved
in favor of the deadline; the spec leaves ties implementation-defined and no
theorem below depends on a tie. -/
def ticksBeforeTimeout (timeoutMs : Int) : Nat :=
  if timeoutMs ≤ 0 then 0 else ((timeoutMs - 1) / 200).toNat

/-- HealthCheck, shared shape of both variants: run the credential/transport
builder (`init` is Part000.NewConnection or ClientGo.consumerInit), fail fast
on a builder error, then race the tick loop against the deadline read from
the post-build session state. -/
def HealthCheckWith (init : KafkaClient → Except InitError KafkaClient)
    (client : KafkaClient) (outcomes : Nat → TickOutcome) : HealthResult :=
  match init client with
  | .error e => .initFailed e
  | .ok c1 => healthLoop outcomes (ticksBeforeTimeout c1.HealthcheckTimeout) 0 none

/-- HealthCheck (part_000). -/
def Part000.HealthCheck (scramMechanism : ScramCtor) (client : KafkaClient)
    (outcomes : Nat → TickOutcome) : HealthResult :=
  HealthCheckWith (Part000.NewConnection scramMechanism) client outcomes

/-- HealthCheck (client.go). -/
def ClientGo.HealthCheck (scramMechanism : ScramCtor) (client : KafkaClient)
    (outcomes : Nat → TickOutcome) : HealthResult :=
  HealthCheckWith (ClientGo.consumerInit scramMechanism) client outcomes

def chQuote : Char := Char.ofNat 34

def chLBrace : Char := Char.ofNat 123

def chRBrace : Char := Char.ofNat 125

def chComma : Char := Char.ofNat 44

def chColon : Char := Char.ofNat 58

def chMinus : Char := Char.ofNat 45

def chDot : Char := Char.ofNat 46

def chBackslash : Char := Char.ofNat 92

/-- JSON insignificant whitespace. -/
def isWsChar (c : Char) : Bool :=
  c = Char.ofNat 32 ∨ c = Char.ofNat 9 ∨ c = Char.ofNat 10 ∨ c = Char.ofNat 13

def skipWs : List Char → List Char
  | [] => []
  | c :: cs => if isWsChar c then skipWs cs else c :: cs

def takeDigits : List Char → List Char × List Char
  | [] => ([], [])
  | c :: cs =>
    if c.isDigit then
      let p := takeDigits cs
      (c :: p.1, p.2)
    else ([], c :: cs)

def digitsVal (ds : List Char) : Nat :=
  ds.foldl (fun n c => 10 * n + (c.toNat - 48)) 0

/-- Parse a JSON number (optional sign, integer part, optional fraction). -/
def parseNumber (cs : List Char) : Except String (ℚ × List Char) :=
  let sp : Bool × List Char :=
    match cs with
    | c :: rest => if c = chMinus then (true, rest) else (false, cs)
    | [] => (false, [])
  match takeDigits sp.2 with
  | ([], _) => .error ("invalid number")
  | (ds, rest) =>
    match rest with
    | c :: rest2 =>
      if c = chDot then
        match takeDigits rest2 with
        | ([], _) => .error ("invalid number")
        | (fs, rest3) =>
          let num : Int := (digitsVal ds) * (10 : Nat) ^ fs.length + digitsVal fs
          let q : ℚ := mkRat (if sp.1 then -num else num) ((10 : Nat) ^ fs.length)
          .ok (q, rest3)
      else
        .ok (mkRat (if sp.1 then -(digitsVal ds : Int) else (digitsVal ds : Int)) 1,
             c :: rest2)
    | [] => .ok (mkRat (if sp.1 then -(digitsVal ds : Int) else (digitsVal ds : Int)) 1, [])

/-- Parse the remainder of a JSON string after its opening quote
(escape sequences are outside the modelled fragment). -/
def parseStringRest : List Char → Except String (List Char × List Char)
  | [] => .error ("unterminated string")
  | c :: cs =>
    if c = chQuote then .ok ([], cs)
    else if c = chBackslash then .error ("escape sequences unsupported")
    else
      match parseStringRest cs with
      | .error e => .error e
      | .ok (s, rest) => .ok (c :: s, rest)

/-- A value position must hold a number when decoding into
map[string]float64; anything else is a decode error. -/
def parseNumberValue (cs : List Char) : Except String (ℚ × List Char) :=
  match cs with
  | [] => .error ("unexpected end of input")
  | c :: _ =>
    if c = chMinus ∨ c.isDigit then parseNumber cs
    else .error ("json: cannot unmarshal non-number into float64")

/-- Parse the members of a JSON object, positioned at the first key,
consuming through the closing brace. -/
def parseMembers (fuel : Nat) (cs : List Char) :
    Except String (List (String × ℚ) × List Char) :=
  match fuel with
  | 0 => .error ("input too long")
  | fuel + 1 =>
    match skipWs cs with
    | [] => .error ("unexpected end of input")
    | c :: cs1 =>
      if c = chQuote then
        match parseStringRest cs1 with
        | .error e => .error e
        | .ok (keyChars, cs2) =>
          match skipWs cs2 with
          | [] => .error ("unexpected end of input")
          | c2 :: cs3 =>
            if c2 = chColon then
              match parseNumberValue (skipWs cs3) with
              | .error e => .error e
              | .ok (v, cs4) =>
                match skipWs cs4 with
                | [] => .error ("unexpected end of input")
                | c3 :: cs5 =>
                  if c3 = chComma then
                    match parseMembers fuel cs5 with
                    | .error e => .error e
                    | .ok (ms, rest) => .ok ((String.mk keyChars, v) :: ms, rest)
                  else if c3 = chRBrace then .ok ([(String.mk keyChars, v)], cs5)
                  else .error ("expected comma or end of object")
            else .error ("expected colon after key")
      else .error ("expected string key")

/-- Modelled from the spec: the external encoding/json Unmarshal of a message
body into map[string]float64 (spec §1 excludes JSON decoding primitives as an
external collaborator; §4.3 and §8 fix its contract on flat numeric objects:
a flat numeric JSON object decodes to the corresponding string-to-number
mapping, while invalid JSON or a non-numeric member value fails).  The
modelled fragment covers flat objects of number members without escape
sequences or exponents. -/
def jsonUnmarshalMap (s : String) : Except String (List (String × ℚ)) :=
  match skipWs s.toList with
  | [] => .error ("unexpected end of JSON input")
  | c :: cs =>
    if c = chLBrace then
      match skipWs cs with
      | [] => .error ("unexpected end of JSON input")
      | c2 :: cs2 =>
        if c2 = chRBrace then
          if (skipWs cs2).isEmpty then .ok [] else .error ("trailing data")
        else
          match parseMembers (s.length + 1) (c2 :: cs2) with
          | .error e => .error e
          | .ok (ms, rest) =>
            if (skipWs rest).isEmpty then .ok ms else .error ("trailing data")
    else .error ("invalid character at top level")

deriving instance DecidableEq for Except

/-- A scram constructor that accepts every credential pair: the success path
of the external scram.Mechanism. -/
def scramOkCtor : ScramCtor := fun a u p => .ok (.scram a u p)

/-- A session that already holds a dialer built by an earlier NewConnection
call (marked by its off-default timeout). -/
def c4client : KafkaClient :=
  { Dialer := some { Timeout := 1234 }, BootstrapServers := "localhost:9092" }

/-- Health-check fixture: deadline of 1000 ms (four full ticks). -/
def hcClient : KafkaClient :=
  { BootstrapServers := "localhost:9092", HealthcheckTimeout := 1000 }

/-- `hcClient` after its dialer is built (no SASL, no TLS). -/
def hcClientInit : KafkaClient :=
  { BootstrapServers := "localhost:9092", HealthcheckTimeout := 1000,
    Dialer := some { Timeout := 10000 } }

/-- Tick schedule: one dial failure, then a successful dial whose partition
listing fails, then quiet success forever. -/
def hcOutcomes : Nat → TickOutcome := fun k =>
  match k with
  | 0 => .dialFail ("connection refused")
  | 1 => .dialOkPartsFail ("not authorized")
  | _ => .dialOkPartsOk []

/-- Health-check fixture: deadline of 100 ms, shorter than one tick. -/
def hcShortClient : KafkaClient :=
  { BootstrapServers := "localhost:9092", HealthcheckTimeout := 100 }

/-- `hcShortClient` after its dialer is built. -/
def hcShortClientInit : KafkaClient :=
  { BootstrapServers := "localhost:9092", HealthcheckTimeout := 100,
    Dialer := some { Timeout := 10000 } }

/-- Health-check fixture: deadline of 500 ms (two full ticks). -/
def hcFailClient : KafkaClient :=
  { BootstrapServers := "localhost:9092", HealthcheckTimeout := 500 }

/-- `hcFailClient` after its dialer is built. -/
def hcFailClientInit : KafkaClient :=
  { BootstrapServers := "localhost:9092", HealthcheckTimeout := 500,
    Dialer := some { Timeout := 10000 } }

/-- Tick schedule on which every dial fails. -/
def hcAllFail : Nat → TickOutcome := fun _ => .dialFail ("connection refused")

/-- A broker message whose body is the spec's flat numeric example. -/
def c9good : GoMessage :=
  { Value := "\x7b\"a\": 1.5, \"b\": 2\x7d", Time := 111, Offset := 7 }

/-- A broker message whose body maps a key to a non-numeric value. -/
def c9bad : GoMessage :=
  { Value := "\x7b\"a\":\"x\"\x7d", Time := 222, Offset := 8 }

/-- A broker message whose body is not valid JSON. -/
def c9invalid : GoMessage :=
  { Value := "not json", Time := 333, Offset := 9 }

/-! Theorems. -/

/-- getSASLMechanism reads only the SASL configuration fields: the dialer
slot of the session does not influence it. -/
theorem getSASLMechanism_dialer_irrel (scram : ScramCtor) (client : KafkaClient)
    (d1 d2 : Option Dialer) :
    getSASLMechanism scram { client with Dialer := d1 } =
      getSASLMechanism scram { client with Dialer := d2 } := by
  obtain ⟨D, R, bs, tmm, sp, sm, su, spw, ll, ht⟩ := client
  rfl

/-- The builder of client.go overwrites the dialer slot, so its result does
not depend on the dialer the session held before the call. -/
theorem consumerInit_dialer_irrel (scram : ScramCtor) (client : KafkaClient)
    (d1 d2 : Option Dialer) :
    ClientGo.consumerInit scram { client with Dialer := d1 } =
      ClientGo.consumerInit scram { client with Dialer := d2 } := by
  obtain ⟨D, R, bs, tmm, sp, sm, su, spw, ll, ht⟩ := client
  rfl

/-- On success, the builder of client.go changes only the dialer slot. -/
theorem consumerInit_ok_fields (scram : ScramCtor) (c c1 : KafkaClient)
    (h : ClientGo.consumerInit scram c = .ok c1) :
    c1.TimestampMode = c.TimestampMode ∧ c1.Reader = c.Reader := by
  unfold ClientGo.consumerInit at h
  split at h
  · exact absurd h (by simp)
  · simp only [Except.ok.injEq] at h
    subst h
    exact ⟨rfl, rfl⟩

/-- C1: for an `earliest` assignment under part_000's bounded-lookback
strategy, once the low/high watermarks are read successfully the resolved
start offset (the offset the freshly bound reader is seated at) is `low`
when `high - low ≤ 100` and `high - 100` when `high - low > 100`. -/
theorem C1_bounded_lookback_offset (client : KafkaClient) (topic : String)
    (partition : Int) (tm : String) (low high : Int) :
    (Part000.TopicAssign client topic partition ("earliest") tm
        (Except.ok ()) (Except.ok (low, high))).1 = Except.ok () ∧
    ((Part000.TopicAssign client topic partition ("earliest") tm
        (Except.ok ()) (Except.ok (low, high))).2.1.Reader.map fun r => r.offset) =
      some (if high - low ≤ 100 then low else high - 100) := by
  by_cases h : high - low ≤ 100
  · have h2 : ¬ (high - low > maxEarliest) := by simp only [maxEarliest]; omega
    simp [Part000.TopicAssign, Part000.finishAssign, Part000.newReader,
      Reader.SetOffset, maxEarliest, h, h2]
  · have h2 : high - low > maxEarliest := by simp only [maxEarliest]; omega
    simp [Part000.TopicAssign, Part000.finishAssign, Part000.newReader,
      Reader.SetOffset, maxEarliest, h, h2]

/-- C5: for an `earliest` assignment (bounded-lookback strategy, part_000),
a failed leader dial or a failed watermark read aborts the assignment with
the corresponding offset-resolution error, and the session's bound-reader
slot is exactly what it was before the call — no reader is created. -/
theorem C5_offset_resolution_failure_aborts (client : KafkaClient)
    (topic : String) (partition : Int) (tm : String) (e1 e2 : String)
    (offsetsRes : Except String (Int × Int)) :
    ((Part000.TopicAssign client topic partition ("earliest") tm
        (Except.error e1) offsetsRes).1 = Except.error (.dialLeaderFailed e1) ∧
      Part000.TAErr.offsetResolutionFailed (.dialLeaderFailed e1) = true ∧
      (Part000.TopicAssign client topic partition ("earliest") tm
        (Except.error e1) offsetsRes).2.1.Reader = client.Reader) ∧
    ((Part000.TopicAssign client topic partition ("earliest") tm
        (Except.ok ()) (Except.error e2)).1 = Except.error (.readOffsetsFailed e2) ∧
      Part000.TAErr.offsetResolutionFailed (.readOffsetsFailed e2) = true ∧
      (Part000.TopicAssign client topic partition ("earliest") tm
        (Except.ok ()) (Except.error e2)).2.1.Reader = client.Reader) := by
  refine ⟨⟨?_, rfl, ?_⟩, ⟨?_, rfl, ?_⟩⟩ <;>
    simp [Part000.TopicAssign, Part000.TAErr.offsetResolutionFailed]

/-- C6: part_000's Dispose is total and idempotent — a no-op returning no
fault on a session that never had a reader bound, closing the underlying
reader exactly once otherwise (the second call closes nothing) — while
client.go's Dispose, lacking the nil guard, faults with a nil-pointer
dereference on a session on which no assignment was ever made. -/
theorem C6_dispose_guard :
    (∀ client : KafkaClient,
      Part000.Dispose { client with Reader := none } =
        .ok ({ client with Reader := none }, [])) ∧
    (∀ (client : KafkaClient) (r : Reader),
      Part000.Dispose { client with Reader := some { r with closed := false } } =
        .ok ({ client with Reader := some { r with closed := true } },
             [CloseEvent.underlyingClose]) ∧
      Part000.Dispose { client with Reader := some { r with closed := true } } =
        .ok ({ client with Reader := some { r with closed := true } }, [])) ∧
    (∀ client : KafkaClient,
      ClientGo.Dispose { client with Reader := none } =
        .error GoPanic.nilPointerDeref) := by
  refine ⟨fun client => rfl, fun client r => ?_, fun client => rfl⟩
  obtain ⟨cfg, off, cl⟩ := r
  exact ⟨by simp [Part000.Dispose, Reader.close], by simp [Part000.Dispose, Reader.close]⟩

/-- C10: both variants of TopicAssign overwrite the session's TimestampMode
with the new argument as their first step, so whatever the outcome of the
call (including every failure path), the returned session carries the new
timestamp mode. -/
theorem C10_timestamp_mode_set_first (scram : ScramCtor) (client : KafkaClient)
    (topic : String) (partition : Int) (reset tm : String)
    (dialRes : Except String Unit) (offsetsRes : Except String (Int × Int)) :
    (Part000.TopicAssign client topic partition reset tm dialRes offsetsRes).2.1.TimestampMode = tm ∧
    (ClientGo.TopicAssign scram client topic partition reset tm).2.1.TimestampMode = tm := by
  constructor
  · rcases dialRes with e | u <;> rcases offsetsRes with e2 | ⟨lo, hi⟩ <;>
      · unfold Part000.TopicAssign
        split <;>
          simp [Part000.finishAssign, Part000.newReader, Reader.SetOffset]
  · unfold ClientGo.TopicAssign
    rcases hEq : ClientGo.consumerInit scram { client with TimestampMode := tm } with e | c1
    · simp [hEq]
    · have hf := consumerInit_ok_fields scram { client with TimestampMode := tm } c1 hEq
      simp [hEq, hf.1]

/-- C3: getSASLMechanism returns no mechanism for the empty string, a
mechanism for PLAIN and the two SCRAM variants (given that the external
scram constructor accepts the credentials), and the unsupported-mechanism
credential error for every other non-empty string. -/
theorem C3_sasl_mechanism_dispatch (scram : ScramCtor) (client : KafkaClient)
    (hscram : ∀ a u p, ∃ m, scram a u p = .ok m) :
    (client.SaslMechanisms = "" →
      getSASLMechanism scram client = .ok none) ∧
    (client.SaslMechanisms = "PLAIN" ∨ client.SaslMechanisms = "SCRAM-SHA-256" ∨
        client.SaslMechanisms = "SCRAM-SHA-512" →
      ∃ m, getSASLMechanism scram client = .ok (some m)) ∧
    (client.SaslMechanisms ≠ "" ∧ client.SaslMechanisms ≠ "PLAIN" ∧
        client.SaslMechanisms ≠ "SCRAM-SHA-256" ∧ client.SaslMechanisms ≠ "SCRAM-SHA-512" →
      getSASLMechanism scram client = .error (.unsupportedMechanism client.SaslMechanisms)) := by
  obtain ⟨D, R, bs, tmm, sp, sm, su, spw, ll, ht⟩ := client
  refine ⟨fun h => ?_, fun h => ?_, fun h => ?_⟩
  · simp only at h
    subst h
    rfl
  · simp only at h
    rcases h with h | h | h <;> subst h
    · exact ⟨.plain su spw, rfl⟩
    · obtain ⟨m, hm⟩ := hscram .sha256 su spw
      exact ⟨m, by simp [getSASLMechanism, hm]⟩
    · obtain ⟨m, hm⟩ := hscram .sha512 su spw
      exact ⟨m, by simp [getSASLMechanism, hm]⟩
  · simp only at h
    unfold getSASLMechanism
    split <;> simp_all

/-- C3 witness: the dispatch evaluated on one concrete client per branch,
with the always-accepting model of the scram constructor. -/
theorem C3_witness :
    getSASLMechanism scramOkCtor { SaslMechanisms := "" } = .ok none ∧
    (∃ m, getSASLMechanism scramOkCtor
      { SaslMechanisms := "PLAIN", SaslUsername := "u", SaslPassword := "p" } = .ok (some m)) ∧
    (∃ m, getSASLMechanism scramOkCtor
      { SaslMechanisms := "SCRAM-SHA-256", SaslUsername := "u", SaslPassword := "p" } = .ok (some m)) ∧
    (∃ m, getSASLMechanism scramOkCtor
      { SaslMechanisms := "SCRAM-SHA-512", SaslUsername := "u", SaslPassword := "p" } = .ok (some m)) ∧
    getSASLMechanism scramOkCtor { SaslMechanisms := "GSSAPI" } =
      .error (.unsupportedMechanism ("GSSAPI")) := by
  have hs : ∀ a u p, ∃ m, scramOkCtor a u p = .ok m := fun a u p => ⟨.scram a u p, rfl⟩
  refine ⟨?_, ?_, ?_, ?_, ?_⟩
  · exact (C3_sasl_mechanism_dispatch scramOkCtor { SaslMechanisms := "" } hs).1 rfl
  · exact (C3_sasl_mechanism_dispatch scramOkCtor
      { SaslMechanisms := "PLAIN", SaslUsername := "u", SaslPassword := "p" } hs).2.1
      (Or.inl rfl)
  · exact (C3_sasl_mechanism_dispatch scramOkCtor
      { SaslMechanisms := "SCRAM-SHA-256", SaslUsername := "u", SaslPassword := "p" } hs).2.1
      (Or.inr (Or.inl rfl))
  · exact (C3_sasl_mechanism_dispatch scramOkCtor
      { SaslMechanisms := "SCRAM-SHA-512", SaslUsername := "u", SaslPassword := "p" } hs).2.1
      (Or.inr (Or.inr rfl))
  · exact (C3_sasl_mechanism_dispatch scramOkCtor { SaslMechanisms := "GSSAPI" } hs).2.2
      (by refine ⟨?_, ?_, ?_, ?_⟩ <;> decide)

/-- Skipping a block of failed-dial ticks: the loop swallows each failure
and carries the last dial error into the next tick. -/
theorem healthLoop_skip (outcomes : Nat → TickOutcome) :
    ∀ (k : Nat) (es : Nat → String) (start fuel : Nat) (lastErr : Option String),
      (∀ j, j < k → outcomes (start + j) = .dialFail (es j)) →
      healthLoop outcomes (k + fuel) start lastErr =
        healthLoop outcomes fuel (start + k)
          (if k = 0 then lastErr else some (es (k - 1))) := by
  intro k
  induction k with
  | zero => intro es start fuel lastErr h; simp
  | succ n ih =>
    intro es start fuel lastErr h
    have h0 : outcomes start = .dialFail (es 0) := by
      have := h 0 (Nat.succ_pos n)
      simpa using this
    have harith : n + 1 + fuel = (n + fuel) + 1 := by omega
    rw [harith]
    have hstep : healthLoop outcomes ((n + fuel) + 1) start lastErr =
        healthLoop outcomes (n + fuel) (start + 1) (some (es 0)) := by
      simp [healthLoop, h0]
    rw [hstep]
    have hshift : ∀ j, j < n → outcomes (start + 1 + j) = .dialFail (es (j + 1)) := by
      intro j hj
      have := h (j + 1) (by omega)
      have harr : start + (j + 1) = start + 1 + j := by omega
      rwa [harr] at this
    have ih2 := ih (fun j => es (j + 1)) (start + 1) fuel (some (es 0)) hshift
    rw [ih2]
    have harr2 : start + 1 + n = start + (n + 1) := by omega
    rw [harr2]
    rcases Nat.eq_zero_or_pos n with hn | hn
    · subst hn; simp
    · have h1 : ¬ (n = 0) := by omega
      have h2 : ¬ (n + 1 = 0) := by omega
      simp only [if_neg h1, if_neg h2]
      have : n - 1 + 1 = n := by omega
      rw [this]
      have hfin : n + 1 - 1 = n := by omega
      rw [hfin]

/-- C2: for any builder and any run whose first k ticks are dial failures
that still fire before the deadline, those failures are swallowed — a
successful dial-and-list at tick k ends the probe with success, while a
successful dial whose partition listing fails at tick k ends the probe
immediately with the fatal partition-list error, whatever the remaining
deadline and whatever later ticks would have brought. -/
theorem C2_healthcheck_asymmetry (init : KafkaClient → Except InitError KafkaClient)
    (client c1 : KafkaClient) (outcomes : Nat → TickOutcome) (es : Nat → String)
    (k : Nat)
    (hinit : init client = .ok c1)
    (hfail : ∀ j, j < k → outcomes j = .dialFail (es j))
    (hk : k < ticksBeforeTimeout c1.HealthcheckTimeout) :
    (∀ parts, outcomes k = .dialOkPartsOk parts →
      HealthCheckWith init client outcomes = .ok) ∧
    (∀ e, outcomes k = .dialOkPartsFail e →
      HealthCheckWith init client outcomes = .partitionListFailed e) := by
  have hsplit : ticksBeforeTimeout c1.HealthcheckTimeout =
      k + (ticksBeforeTimeout c1.HealthcheckTimeout - k - 1 + 1) := by omega
  have hskip := healthLoop_skip outcomes k es 0
    (ticksBeforeTimeout c1.HealthcheckTimeout - k - 1 + 1) none
    (by intro j hj; simpa using hfail j hj)
  have hbase : HealthCheckWith init client outcomes =
      healthLoop outcomes (ticksBeforeTimeout c1.HealthcheckTimeout) 0 none := by
    simp [HealthCheckWith, hinit]
  constructor
  · intro parts hp
    rw [hbase, hsplit, hskip]
    simp [healthLoop, hp]
  · intro e hp
    rw [hbase, hsplit, hskip]
    simp [healthLoop, hp]

/-- C2 witness: a dial failure on the first tick, then a successful dial
whose partition listing fails on the second tick, under a 1000 ms deadline:
the probe fails at the second tick with the partition-list error. -/
theorem C2_witness :
    HealthCheckWith (Part000.NewConnection scramOkCtor) hcClient hcOutcomes =
      .partitionListFailed ("not authorized") := by
  have hinit : Part000.NewConnection scramOkCtor hcClient = .ok hcClientInit := by rfl
  have hfail : ∀ j, j < 1 → hcOutcomes j = .dialFail ((fun _ => "connection refused") j) := by
    intro j hj
    have : j = 0 := by omega
    subst this
    rfl
  have hk : 1 < ticksBeforeTimeout hcClientInit.HealthcheckTimeout := by decide
  exact (C2_healthcheck_asymmetry (Part000.NewConnection scramOkCtor) hcClient
    hcClientInit hcOutcomes (fun _ => "connection refused") 1 hinit hfail hk).2
    ("not authorized") rfl

/-- C7: for any builder, if every tick that fires before the deadline is a
dial failure, the probe times out wrapping the last dial error observed
(none when no tick fired); in particular a deadline below one 200 ms tick
interval times out wrapping nil whatever the tick schedule would have
brought — no dial is observed. -/
theorem C7_healthcheck_timeout :
    (∀ (init : KafkaClient → Except InitError KafkaClient) (client c1 : KafkaClient)
       (outcomes : Nat → TickOutcome) (es : Nat → String),
      init client = .ok c1 →
      (∀ j, j < ticksBeforeTimeout c1.HealthcheckTimeout →
        outcomes j = .dialFail (es j)) →
      HealthCheckWith init client outcomes =
        .timedOut (if ticksBeforeTimeout c1.HealthcheckTimeout = 0 then none
                   else some (es (ticksBeforeTimeout c1.HealthcheckTimeout - 1)))) ∧
    (∀ (init : KafkaClient → Except InitError KafkaClient) (client c1 : KafkaClient)
       (outcomes : Nat → TickOutcome),
      init client = .ok c1 → c1.HealthcheckTimeout < 200 →
      HealthCheckWith init client outcomes = .timedOut none) := by
  constructor
  · intro init client c1 outcomes es hinit hfail
    have hskip := healthLoop_skip outcomes (ticksBeforeTimeout c1.HealthcheckTimeout)
      es 0 0 none (by intro j hj; simpa using hfail j hj)
    have hbase : HealthCheckWith init client outcomes =
        healthLoop outcomes (ticksBeforeTimeout c1.HealthcheckTimeout) 0 none := by
      simp [HealthCheckWith, hinit]
    rw [hbase]
    have harith : ticksBeforeTimeout c1.HealthcheckTimeout =
        ticksBeforeTimeout c1.HealthcheckTimeout + 0 := by omega
    rw [harith] at hskip ⊢
    rw [hskip]
    simp [healthLoop]
  · intro init client c1 outcomes hinit hshort
    have hzero : ticksBeforeTimeout c1.HealthcheckTimeout = 0 := by
      unfold ticksBeforeTimeout
      split
      · rfl
      · next hpos =>
        have h0 : (0 : Int) ≤ c1.HealthcheckTimeout - 1 := by omega
        have h1 : c1.HealthcheckTimeout - 1 < 200 := by omega
        rw [Int.ediv_eq_zero_of_lt h0 h1]
        rfl
    simp [HealthCheckWith, hinit, hzero, healthLoop]

/-- C7 witness: with a 100 ms deadline (shorter than one tick) the probe
times out wrapping nil on any schedule; with a 500 ms deadline and every
dial failing it times out wrapping the last dial error. -/
theorem C7_witness :
    HealthCheckWith (Part000.NewConnection scramOkCtor) hcShortClient hcOutcomes =
      .timedOut none ∧
    HealthCheckWith (ClientGo.consumerInit scramOkCtor) hcFailClient hcAllFail =
      .timedOut (some ("connection refused")) := by
  constructor
  · exact C7_healthcheck_timeout.2 (Part000.NewConnection scramOkCtor) hcShortClient
      hcShortClientInit hcOutcomes (by rfl) (by decide)
  · have h := C7_healthcheck_timeout.1 (ClientGo.consumerInit scramOkCtor) hcFailClient
      hcFailClientInit hcAllFail (fun _ => "connection refused") (by rfl)
      (by intro j hj; rfl)
    simpa using h

/-- C8: for the `latest` policy and every unrecognized policy string, offset
resolution performs no broker round trip — the trace of part_000's
TopicAssign holds no DialLeader and no ReadOffsets event, and client.go's
trace never holds them — and the reader is seated at the next-write
sentinel LastOffset in both variants. -/
theorem C8_latest_default_no_roundtrip (reset : String) (hreset : reset ≠ "earliest") :
    (∀ (client : KafkaClient) (topic : String) (partition : Int) (tm : String)
       (dialRes : Except String Unit) (offsetsRes : Except String (Int × Int)),
      (Part000.TopicAssign client topic partition reset tm dialRes offsetsRes).2.2 =
        [Event.newReader topic partition] ∧
      ((Part000.TopicAssign client topic partition reset tm dialRes
          offsetsRes).2.1.Reader.map fun r => r.offset) = some LastOffset) ∧
    (∀ (scram : ScramCtor) (client : KafkaClient) (topic : String) (partition : Int)
       (tm : String),
      (∀ a t p, Event.dialLeader a t p ∉
        (ClientGo.TopicAssign scram client topic partition reset tm).2.2) ∧
      Event.readOffsets ∉ (ClientGo.TopicAssign scram client topic partition reset tm).2.2 ∧
      ((ClientGo.TopicAssign scram client topic partition reset tm).1 = .ok () →
        ((ClientGo.TopicAssign scram client topic partition reset tm).2.1.Reader.map
          fun r => r.offset) = some LastOffset)) := by
  constructor
  · intro client topic partition tm dialRes offsetsRes
    unfold Part000.TopicAssign
    split
    · constructor <;>
        simp [Part000.finishAssign, Part000.newReader, Reader.SetOffset]
    · exact absurd rfl hreset
    · constructor <;>
        simp [Part000.finishAssign, Part000.newReader, Reader.SetOffset]
  · intro scram client topic partition tm
    rcases hEq : ClientGo.consumerInit scram { client with TimestampMode := tm } with e | c1
    · refine ⟨?_, ?_, ?_⟩ <;> simp [ClientGo.TopicAssign, hEq]
    · refine ⟨?_, ?_, ?_⟩
      · simp [ClientGo.TopicAssign, hEq]
      · simp [ClientGo.TopicAssign, hEq]
      · intro _
        simp only [ClientGo.TopicAssign, hEq]
        simp only [ClientGo.newReader, Option.map_some]
        split <;> simp_all

/-- C8 witness: the theorem applied to the unrecognized policy string
"bogus", a failing broker oracle (showing no round trip is consulted), and
a concrete client. -/
theorem C8_witness :
    (Part000.TopicAssign ({} : KafkaClient) ("t") 0 ("bogus") ("tm")
        (Except.error ("boom")) (Except.error ("boom"))).2.2 =
      [Event.newReader ("t") 0] ∧
    ((Part000.TopicAssign ({} : KafkaClient) ("t") 0 ("bogus") ("tm")
        (Except.error ("boom")) (Except.error ("boom"))).2.1.Reader.map
      fun r => r.offset) = some LastOffset := by
  exact (C8_latest_default_no_roundtrip ("bogus") (by decide)).1 {} ("t") 0 ("tm")
    (Except.error ("boom")) (Except.error ("boom"))

/-- C4 counterexample: part_000's TopicAssign (policy `latest`, a session
whose dialer was built by an earlier NewConnection call and is marked by
its 1234 ms timeout) never invokes the credential/transport builder — its
trace holds no buildDialer event — and the reader it opens carries exactly
the pre-existing dialer, refuting "every call to the assignment operation
builds a fresh transport/credential set". -/
theorem C4_counterexample :
    (Part000.TopicAssign c4client ("t") 0 ("latest") ("tm") (Except.ok ())
        (Except.ok (0, 0))).2.2 = [Event.newReader ("t") 0] ∧
    Event.buildDialer ∉ (Part000.TopicAssign c4client ("t") 0 ("latest") ("tm")
        (Except.ok ()) (Except.ok (0, 0))).2.2 ∧
    ((Part000.TopicAssign c4client ("t") 0 ("latest") ("tm") (Except.ok ())
        (Except.ok (0, 0))).2.1.Reader.map fun r => r.config.Dialer) =
      some (some { Timeout := 1234 }) := by
  refine ⟨by decide, by decide, by decide⟩

/-- C4 amended: in the client.go variant, every TopicAssign call re-invokes
the credential/transport builder before opening the reader (buildDialer
heads the trace), the dialer the reader is bound to is independent of
whatever dialer the session held before the call, and on success it is
exactly the dialer the builder just produced. -/
theorem C4_fresh_transport_clientgo (scram : ScramCtor) (client : KafkaClient)
    (d1 d2 : Option Dialer) (topic : String) (partition : Int) (reset tm : String) :
    (ClientGo.TopicAssign scram { client with Dialer := d1 } topic partition
        reset tm).2.2.head? = some Event.buildDialer ∧
    ((ClientGo.TopicAssign scram { client with Dialer := d1 } topic partition
        reset tm).2.1.Reader.map fun r => r.config.Dialer) =
      ((ClientGo.TopicAssign scram { client with Dialer := d2 } topic partition
        reset tm).2.1.Reader.map fun r => r.config.Dialer) ∧
    ((ClientGo.TopicAssign scram { client with Dialer := d1 } topic partition
        reset tm).1 = .ok () →
      ∃ c1, ClientGo.consumerInit scram
          { client with Dialer := d1, TimestampMode := tm } = .ok c1 ∧
        ((ClientGo.TopicAssign scram { client with Dialer := d1 } topic partition
          reset tm).2.1.Reader.map fun r => r.config.Dialer) = some c1.Dialer) := by
  have hirrel : ClientGo.consumerInit scram
      { client with Dialer := d1, TimestampMode := tm } =
      ClientGo.consumerInit scram { client with Dialer := d2, TimestampMode := tm } :=
    consumerInit_dialer_irrel scram { client with TimestampMode := tm } d1 d2
  unfold ClientGo.TopicAssign
  rcases hEq : ClientGo.consumerInit scram
      { client with Dialer := d1, TimestampMode := tm } with e | c1
  · have hEq2 : ClientGo.consumerInit scram
        { client with Dialer := d2, TimestampMode := tm } = .error e := by
      rw [← hirrel]; exact hEq
    refine ⟨by simp [hEq], ?_, fun hok => absurd hok (by simp [hEq])⟩
    simp [hEq, hEq2]
  · have hEq2 : ClientGo.consumerInit scram
        { client with Dialer := d2, TimestampMode := tm } = .ok c1 := by
      rw [← hirrel]; exact hEq
    refine ⟨by simp [hEq], by simp [hEq, hEq2, ClientGo.newReader], fun _ => ?_⟩
    exact ⟨c1, rfl, by simp [hEq, ClientGo.newReader]⟩

/-- C4 witness: the amended theorem evaluated on a session previously
holding the 1234 ms dialer versus one holding none: the trace starts with
the builder invocation and the bound dialer is the freshly built one. -/
theorem C4_witness :
    (ClientGo.TopicAssign scramOkCtor c4client ("t") 0 ("latest")
        ("x")).2.2.head? = some Event.buildDialer ∧
    ((ClientGo.TopicAssign scramOkCtor c4client ("t") 0 ("latest")
        ("x")).2.1.Reader.map fun r => r.config.Dialer) =
      ((ClientGo.TopicAssign scramOkCtor
          { c4client with Dialer := none } ("t") 0 ("latest")
        ("x")).2.1.Reader.map fun r => r.config.Dialer) ∧
    (∃ c1, ClientGo.consumerInit scramOkCtor
        { c4client with TimestampMode := "x" } = .ok c1 ∧
      ((ClientGo.TopicAssign scramOkCtor c4client ("t") 0 ("latest")
        ("x")).2.1.Reader.map fun r => r.config.Dialer) = some c1.Dialer) := by
  have h := C4_fresh_transport_clientgo scramOkCtor
    { c4client with Dialer := none } (some { Timeout := 1234 }) none
    ("t") 0 ("latest") ("x")
  exact ⟨h.1, h.2.1, h.2.2 (by decide)⟩

/-- C9: a pull whose message body decodes yields the decoded mapping with
the broker-assigned offset and timestamp; a body the decoder rejects fails
the pull with the decode error, that single message is consumed and
dropped, the session state is returned untouched, and the next pull on the
same session proceeds normally. -/
theorem C9_pull_decode (unmarshal : String → Except String (List (String × ℚ)))
    (client : KafkaClient) (msg : GoMessage) (rest : List GoMessage)
    (v : List (String × ℚ)) (e : String) :
    (unmarshal msg.Value = .ok v →
      ConsumerPull unmarshal client (msg :: rest) =
        (.ok { Value := v, Timestamp := msg.Time, Offset := msg.Offset }, client, rest)) ∧
    (unmarshal msg.Value = .error e →
      ConsumerPull unmarshal client (msg :: rest) =
        (.error (.decodeError e), client, rest)) ∧
    (∀ (msg2 : GoMessage) (rest2 : List GoMessage) (v2 : List (String × ℚ)),
      unmarshal msg.Value = .error e → unmarshal msg2.Value = .ok v2 →
      ConsumerPull unmarshal
          (ConsumerPull unmarshal client (msg :: msg2 :: rest2)).2.1
          (ConsumerPull unmarshal client (msg :: msg2 :: rest2)).2.2 =
        (.ok { Value := v2, Timestamp := msg2.Time, Offset := msg2.Offset },
         client, rest2)) := by
  refine ⟨fun h => ?_, fun h => ?_, fun msg2 rest2 v2 h h2 => ?_⟩
  · simp [ConsumerPull, h]
  · simp [ConsumerPull, h]
  · simp [ConsumerPull, h, h2]

/-- C9 witness: with the spec-modelled JSON decoder, the body
`{"a": 1.5, "b": 2}` pulls as the mapping a ↦ 1.5, b ↦ 2 with offset 7 and
timestamp 111; the non-numeric body `{"a":"x"}` and the invalid body
`not json` fail with a decode error; and the pull right after the failed
one succeeds on the same session. -/
theorem C9_witness :
    ConsumerPull jsonUnmarshalMap ({} : KafkaClient) [c9good] =
      (.ok { Value := [("a", mkRat 3 2), ("b", 2)], Timestamp := 111, Offset := 7 },
       ({} : KafkaClient), []) ∧
    ConsumerPull jsonUnmarshalMap ({} : KafkaClient) [c9bad, c9good] =
      (.error (.decodeError ("json: cannot unmarshal non-number into float64")),
       ({} : KafkaClient), [c9good]) ∧
    ConsumerPull jsonUnmarshalMap
        (ConsumerPull jsonUnmarshalMap ({} : KafkaClient) [c9bad, c9good]).2.1
        (ConsumerPull jsonUnmarshalMap ({} : KafkaClient) [c9bad, c9good]).2.2 =
      (.ok { Value := [("a", mkRat 3 2), ("b", 2)], Timestamp := 111, Offset := 7 },
       ({} : KafkaClient), []) ∧
    ConsumerPull jsonUnmarshalMap ({} : KafkaClient) [c9invalid] =
      (.error (.decodeError ("invalid character at top level")),
       ({} : KafkaClient), []) := by
  refine ⟨?_, ?_, ?_, ?_⟩
  · exact (C9_pull_decode jsonUnmarshalMap {} c9good []
      [("a", mkRat 3 2), ("b", 2)] ("")).1 (by decide)
  · exact (C9_pull_decode jsonUnmarshalMap {} c9bad [c9good]
      [] ("json: cannot unmarshal non-number into float64")).2.1 (by decide)
  · exact (C9_pull_decode jsonUnmarshalMap {} c9bad []
      [] ("json: cannot unmarshal non-number into float64")).2.2 c9good []
      [("a", mkRat 3 2), ("b", 2)] (by decide) (by decide)
  · exact (C9_pull_decode jsonUnmarshalMap {} c9invalid []
      [] ("invalid character at top level")).2.1 (by decide)
